import Mathlib

/-!
Verification of the Online Learning Platform backend (src/index.js).

The database is modelled as lists of rows; each Express handler becomes a
pure function from its request data and the database state to a response
together with the next database state.  JavaScript falsiness on request
body fields is modelled explicitly: an absent field (or JSON null, which
the pg driver also sends as SQL NULL) is `none`, an empty string and the
number 0 are present but falsy.
-/

namespace OLP

/-- Falsiness of an optional string field of the request body: absent,
null and the empty string are falsy, any other string is truthy. -/
def truthyS : Option String → Bool
  | none => false
  | some s => s ≠ ""

/-- Falsiness of an optional numeric id field of the request body: absent,
null and the number 0 are falsy. -/
def truthyN : Option Nat → Bool
  | none => false
  | some n => n ≠ 0

/-- Falsiness of an optional integer field (the review rating): absent,
null and the number 0 are falsy. -/
def truthyI : Option Int → Bool
  | none => false
  | some n => n ≠ 0

/-- SQL COALESCE of a nullable parameter against a NOT NULL column:
NULL keeps the stored value. -/
def coalesceS (p : Option String) (old : String) : String :=
  match p with
  | none => old
  | some v => v

/-- SQL COALESCE of a nullable parameter against a nullable column. -/
def coalesceOS (p : Option String) (old : Option String) : Option String :=
  match p with
  | none => old
  | some v => some v

/-- A row of the Users table. -/
structure UserRow where
  id : Nat
  name : String
  email : String
  password : String
  role : String
deriving DecidableEq, Repr

/-- A row of the Courses table (description is nullable). -/
structure CourseRow where
  id : Nat
  title : String
  description : Option String
  instructor_id : Nat
deriving DecidableEq, Repr

/-- A row of the Enrollments table: the (course_id, user_id) pair. -/
structure EnrollmentRow where
  course_id : Nat
  user_id : Nat
deriving DecidableEq, Repr

/-- A row of the Reviews table (comment is nullable). -/
structure ReviewRow where
  course_id : Nat
  user_id : Nat
  rating : Int
  comment : Option String
deriving DecidableEq, Repr

/-- The database state: the four tables, plus the id sequences backing the
generated primary keys of Users and Courses. -/
structure DB where
  users : List UserRow
  courses : List CourseRow
  enrollments : List EnrollmentRow
  reviews : List ReviewRow
  nextUserId : Nat
  nextCourseId : Nat
deriving DecidableEq, Repr

/-- The public projection of a user returned by registration
(RETURNING id, name, email, role — no password column). -/
structure PublicUser where
  id : Nat
  name : String
  email : String
  role : String
deriving DecidableEq, Repr

/-- A row of the reviews listing (r.rating, r.comment, u.name AS reviewer_name). -/
structure ReviewInfo where
  rating : Int
  comment : Option String
  reviewer_name : String
deriving DecidableEq, Repr

/-- The JSON body shapes produced by the handlers. -/
inductive Body where
  | errorB : String → Body
  | messageB : String → Body
  | msgUser : String → PublicUser → Body
  | msgToken : String → String → Body
  | msgCourse : String → CourseRow → Body
  | msgEnrollment : String → EnrollmentRow → Body
  | msgReview : String → ReviewRow → Body
  | coursesB : List CourseRow → Body
  | enrolledCoursesB : List CourseRow → Body
  | reviewsB : List ReviewInfo → Body
deriving DecidableEq, Repr

/-- An HTTP response: status code and JSON body. -/
structure Resp where
  status : Nat
  body : Body
deriving DecidableEq, Repr

/-- The decoded JWT payload: jwt.sign embeds exactly the id. -/
structure Payload where
  id : Nat
deriving DecidableEq, Repr

/-- Strip a pattern from the front of a character list, when it is a prefix. -/
def stripFront : List Char → List Char → Option (List Char)
  | [], s => some s
  | _ :: _, [] => none
  | p :: ps, c :: cs => if p = c then stripFront ps cs else none

/-- Remove the first occurrence of a pattern from a character list. -/
def removeFirst (pat : List Char) : List Char → List Char
  | [] => []
  | c :: cs =>
    match stripFront pat (c :: cs) with
    | some rest => rest
    | none => c :: removeFirst pat cs

/-- Replace the first occurrence of a pattern by the empty string, like the
JavaScript s.replace('Bearer ', '') with a string pattern. -/
def replaceFirst (s pat : String) : String :=
  String.mk (removeFirst pat.data s.data)

/-- Token extraction of the middleware:
req.header('Authorization')?.replace('Bearer ', '') followed by the
falsiness test.  An absent header gives undefined; an empty result is
falsy; both lead to the 401 branch, so both are `none` here. -/
def extractToken (authHeader : Option String) : Option String :=
  match authHeader with
  | none => none
  | some h =>
    let t := replaceFirst h "Bearer "
    if t = "" then none else some t

/-- Outcome of running a protected route: either the middleware answers
with an error response, or the wrapped handler runs on the decoded payload. -/
inductive MWOut (α : Type) where
  | err : Nat → String → MWOut α
  | ok : α → MWOut α
deriving DecidableEq, Repr

/-- The verifyToken middleware around a handler.  jwt.verify is an external
collaborator and is passed in as a function returning the decoded payload
or failing (invalid signature or expired token). -/
def runWithAuth {α : Type} (verify : String → Option Payload)
    (authHeader : Option String) (handler : Payload → α) : MWOut α :=
  match extractToken authHeader with
  | none => MWOut.err 401 "Access Denied: No Token Provided"
  | some t =>
    match verify t with
    | none => MWOut.err 403 "Invalid or Expired Token"
    | some decoded => MWOut.ok (handler decoded)

/-- POST /api/users/register.  bcrypt hashing is an external collaborator
passed in as a function. -/
def register (hash : String → String) (name email password role : Option String)
    (db : DB) : Resp × DB :=
  if !(truthyS name && truthyS email && truthyS password && truthyS role) then
    (⟨400, Body.errorB "All fields are required"⟩, db)
  else
    let emailV := email.getD ""
    let userCheck := db.users.filter (fun u => u.email == emailV)
    if userCheck.length > 0 then
      (⟨400, Body.errorB "User already exists"⟩, db)
    else
      let hashedPassword := hash (password.getD "")
      let newUser : UserRow :=
        ⟨db.nextUserId, name.getD "", emailV, hashedPassword, role.getD ""⟩
      (⟨201, Body.msgUser "User registered successfully"
          ⟨newUser.id, newUser.name, newUser.email, newUser.role⟩⟩,
       { db with users := db.users ++ [newUser], nextUserId := db.nextUserId + 1 })

/-- POST /api/users/login.  bcrypt.compare and token generation are
external collaborators passed in as functions. -/
def login (compare : String → String → Bool) (tokenFor : Nat → String)
    (email password : Option String) (db : DB) : Resp × DB :=
  if !(truthyS email && truthyS password) then
    (⟨400, Body.errorB "All fields are required"⟩, db)
  else
    match db.users.filter (fun u => u.email == email.getD "") with
    | [] => (⟨400, Body.errorB "Invalid credentials"⟩, db)
    | u :: _ =>
      if compare (password.getD "") u.password then
        (⟨200, Body.msgToken "Login successful" (tokenFor u.id)⟩, db)
      else
        (⟨400, Body.errorB "Invalid credentials"⟩, db)

/-- POST /api/courses. -/
def addCourse (title description : Option String) (instructor_id : Option Nat)
    (db : DB) : Resp × DB :=
  if !(truthyS title && truthyN instructor_id) then
    (⟨400, Body.errorB "Title and Instructor ID are required"⟩, db)
  else
    let newCourse : CourseRow :=
      ⟨db.nextCourseId, title.getD "", description, instructor_id.getD 0⟩
    (⟨201, Body.msgCourse "Course added successfully" newCourse⟩,
     { db with courses := db.courses ++ [newCourse], nextCourseId := db.nextCourseId + 1 })

/-- PUT /api/courses/:id.  The UPDATE uses COALESCE on both columns, so a
NULL parameter (absent body field) keeps the stored value. -/
def updateCourse (id : Nat) (title description : Option String)
    (db : DB) : Resp × DB :=
  if !(truthyS title || truthyS description) then
    (⟨400, Body.errorB "At least one field (title or description) must be provided"⟩, db)
  else if (db.courses.filter (fun c => c.id == id)).length = 0 then
    (⟨404, Body.errorB "Course not found"⟩, db)
  else
    let updated := db.courses.map (fun c =>
      if c.id == id then
        { c with title := coalesceS title c.title,
                 description := coalesceOS description c.description }
      else c)
    let row := (updated.filter (fun c => c.id == id)).headD ⟨0, "", none, 0⟩
    (⟨200, Body.msgCourse "Course updated successfully" row⟩,
     { db with courses := updated })

/-- DELETE /api/courses/:id. -/
def deleteCourse (id : Nat) (db : DB) : Resp × DB :=
  if (db.courses.filter (fun c => c.id == id)).length = 0 then
    (⟨404, Body.errorB "Course not found"⟩, db)
  else
    (⟨200, Body.messageB "Course deleted successfully"⟩,
     { db with courses := db.courses.filter (fun c => !(c.id == id)) })

/-- GET /api/courses/:instructorId — always 200, possibly with an empty list. -/
def getCoursesByInstructor (instructorId : Nat) (db : DB) : Resp × DB :=
  (⟨200, Body.coursesB (db.courses.filter (fun c => c.instructor_id == instructorId))⟩, db)

/-- POST /api/enrollments. -/
def enroll (courseId userId : Option Nat) (db : DB) : Resp × DB :=
  if !(truthyN courseId && truthyN userId) then
    (⟨400, Body.errorB "Course ID and User ID are required"⟩, db)
  else
    let c := courseId.getD 0
    let u := userId.getD 0
    if (db.enrollments.filter (fun e => e.course_id == c && e.user_id == u)).length > 0 then
      (⟨400, Body.errorB "User is already enrolled in this course"⟩, db)
    else
      let newEnrollment : EnrollmentRow := ⟨c, u⟩
      (⟨201, Body.msgEnrollment "Enrollment successful" newEnrollment⟩,
       { db with enrollments := db.enrollments ++ [newEnrollment] })

/-- DELETE /api/enrollments.  The DELETE statement removes every row
matching the (course_id, user_id) pair. -/
def disenroll (courseId userId : Option Nat) (db : DB) : Resp × DB :=
  if !(truthyN courseId && truthyN userId) then
    (⟨400, Body.errorB "Course ID and User ID are required"⟩, db)
  else
    let c := courseId.getD 0
    let u := userId.getD 0
    if (db.enrollments.filter (fun e => e.course_id == c && e.user_id == u)).length = 0 then
      (⟨404, Body.errorB "Enrollment not found"⟩, db)
    else
      (⟨200, Body.messageB "Disenrollment successful"⟩,
       { db with enrollments :=
           db.enrollments.filter (fun e => !(e.course_id == c && e.user_id == u)) })

/-- The join of GET /api/enrollments/:userId:
SELECT c.* FROM courses c JOIN Enrollments e ON c.id = e.course_id
WHERE e.user_id = $1, as a nested-loop join. -/
def enrolledCoursesRows (userId : Nat) (db : DB) : List CourseRow :=
  (db.enrollments.filter (fun e => e.user_id == userId)).flatMap
    (fun e => db.courses.filter (fun c => c.id == e.course_id))

/-- GET /api/enrollments/:userId — 404 on an empty join result. -/
def getEnrolledCourses (userId : Nat) (db : DB) : Resp × DB :=
  let rows := enrolledCoursesRows userId db
  if rows.length = 0 then
    (⟨404, Body.messageB "No enrolled courses found"⟩, db)
  else
    (⟨200, Body.enrolledCoursesB rows⟩, db)

/-- POST /api/courses/:courseId/reviews.  courseId comes from the route
path, hence is a nonempty string in JavaScript and always truthy; the
falsiness guard can only fail on rating or userId. -/
def submitReview (courseId : Nat) (rating : Option Int) (comment : Option String)
    (userId : Option Nat) (db : DB) : Resp × DB :=
  if !(truthyI rating && truthyN userId) then
    (⟨400, Body.errorB "Course ID, Rating, and User ID are required"⟩, db)
  else
    let newReview : ReviewRow := ⟨courseId, userId.getD 0, rating.getD 0, comment⟩
    (⟨201, Body.msgReview "Feedback submitted successfully" newReview⟩,
     { db with reviews := db.reviews ++ [newReview] })

/-- PUT /api/courses/:courseId/reviews/:userId.  Both path parameters are
nonempty strings; the body guard tests rating and comment for falsiness. -/
def updateReview (courseId userId : Nat) (rating : Option Int)
    (comment : Option String) (db : DB) : Resp × DB :=
  if !(truthyI rating || truthyS comment) then
    (⟨400, Body.errorB "At least one field (rating or comment) must be provided"⟩, db)
  else if (db.reviews.filter (fun r => r.course_id == courseId && r.user_id == userId)).length = 0 then
    (⟨404, Body.errorB "Review not found"⟩, db)
  else
    let updated := db.reviews.map (fun r =>
      if r.course_id == courseId && r.user_id == userId then
        { r with rating := match rating with | none => r.rating | some v => v,
                 comment := coalesceOS comment r.comment }
      else r)
    let row := (updated.filter (fun r => r.course_id == courseId && r.user_id == userId)).headD
      ⟨0, 0, 0, none⟩
    (⟨200, Body.msgReview "Review updated successfully" row⟩,
     { db with reviews := updated })

/-- The join of GET /api/courses/:courseId/reviews:
SELECT r.rating, r.comment, u.name AS reviewer_name FROM Reviews r
JOIN Users u ON r.user_id = u.id WHERE r.course_id = $1. -/
def courseReviewRows (courseId : Nat) (db : DB) : List ReviewInfo :=
  (db.reviews.filter (fun r => r.course_id == courseId)).flatMap
    (fun r => (db.users.filter (fun u => u.id == r.user_id)).map
      (fun u => ⟨r.rating, r.comment, u.name⟩))

/-- GET /api/courses/:courseId/reviews — 404 on an empty join result. -/
def getCourseReviews (courseId : Nat) (db : DB) : Resp × DB :=
  let rows := courseReviewRows courseId db
  if rows.length = 0 then
    (⟨404, Body.messageB "No reviews found for this course"⟩, db)
  else
    (⟨200, Body.reviewsB rows⟩, db)

/-- Number of Enrollments rows holding a given (course_id, user_id) pair. -/
def enrollCount (db : DB) (c u : Nat) : Nat :=
  (db.enrollments.filter (fun e => e.course_id == c && e.user_id == u)).length

/-- The enrollment uniqueness invariant: at most one row per pair. -/
def pairUnique (db : DB) : Prop :=
  ∀ c u, enrollCount db c u ≤ 1

/-- Number of Reviews rows holding a given (course_id, user_id) pair. -/
def reviewCount (db : DB) (c u : Nat) : Nat :=
  (db.reviews.filter (fun r => r.course_id == c && r.user_id == u)).length

/-- A sample user for concrete instantiations. -/
def sampleUser : UserRow := ⟨1, "Alice", "alice@example.com", "hashedpw", "student"⟩

/-- A sample populated database for concrete instantiations. -/
def sampleDB : DB :=
  ⟨[sampleUser], [⟨1, "Algebra", some "intro", 1⟩], [⟨1, 1⟩], [⟨1, 1, 5, some "great"⟩], 2, 2⟩

/-- The empty database. -/
def emptyDB : DB := ⟨[], [], [], [], 1, 1⟩

/-- C1: on a protected route the middleware answers 401 when no token can
be extracted from the Authorization header, 403 when a token is present
but verification fails, and otherwise runs the handler on the decoded
payload. -/
theorem verifyToken_spec {α : Type} (verify : String → Option Payload)
    (authHeader : Option String) (handler : Payload → α) :
    (extractToken authHeader = none →
      runWithAuth verify authHeader handler =
        MWOut.err 401 "Access Denied: No Token Provided") ∧
    (∀ t, extractToken authHeader = some t → verify t = none →
      runWithAuth verify authHeader handler =
        MWOut.err 403 "Invalid or Expired Token") ∧
    (∀ t p, extractToken authHeader = some t → verify t = some p →
      runWithAuth verify authHeader handler = MWOut.ok (handler p)) := by
  refine ⟨?_, ?_, ?_⟩
  · intro h
    simp [runWithAuth, h]
  · intro t ht hv
    simp [runWithAuth, ht, hv]
  · intro t p ht hv
    simp [runWithAuth, ht, hv]

/-- Witness for C1 at a concrete verifier, header and handler: all three
branches of the middleware, evaluated. -/
theorem verifyToken_spec_witness :
    runWithAuth (fun t => if t = "good" then some ⟨7⟩ else none)
        (some "Bearer good") (fun p => p.id) = MWOut.ok 7 ∧
    runWithAuth (fun t => if t = "good" then some ⟨7⟩ else none)
        (some "Bearer bad") (fun p => p.id) =
      MWOut.err 403 "Invalid or Expired Token" ∧
    runWithAuth (fun t => if t = "good" then some ⟨7⟩ else none)
        none (fun p => p.id) =
      MWOut.err 401 "Access Denied: No Token Provided" :=
  ⟨(verifyToken_spec _ _ _).2.2 "good" ⟨7⟩ rfl rfl,
   (verifyToken_spec _ _ _).2.1 "bad" rfl rfl,
   (verifyToken_spec _ _ _).1 rfl⟩

/-- C2: with both login fields present, an unknown email and a known email
with a non-matching password produce the identical 400 response with the
same generic body. -/
theorem login_indistinguishable (compare : String → String → Bool)
    (tokenFor : Nat → String) (e1 p1 e2 p2 : String) (db1 db2 : DB)
    (he1 : e1 ≠ "") (hp1 : p1 ≠ "") (he2 : e2 ≠ "") (hp2 : p2 ≠ "")
    (hno : db1.users.filter (fun u => u.email == e1) = [])
    (u : UserRow) (rest : List UserRow)
    (hfound : db2.users.filter (fun v => v.email == e2) = u :: rest)
    (hmismatch : compare p2 u.password = false) :
    (login compare tokenFor (some e1) (some p1) db1).1 =
      (login compare tokenFor (some e2) (some p2) db2).1 ∧
    (login compare tokenFor (some e1) (some p1) db1).1 =
      ⟨400, Body.errorB "Invalid credentials"⟩ := by
  have h1 : (login compare tokenFor (some e1) (some p1) db1).1 =
      ⟨400, Body.errorB "Invalid credentials"⟩ := by
    simp [login, truthyS, he1, hp1, hno]
  have h2 : (login compare tokenFor (some e2) (some p2) db2).1 =
      ⟨400, Body.errorB "Invalid credentials"⟩ := by
    simp [login, truthyS, he2, hp2, hfound, hmismatch]
  exact ⟨h1.trans h2.symm, h1⟩

/-- Witness for C2: unknown email on the empty database versus the sample
user with a rejecting password comparison. -/
theorem login_indistinguishable_witness :
    (login (fun _ _ => false) (fun _ => "tok") (some "bob@example.com")
        (some "pw") emptyDB).1 =
      (login (fun _ _ => false) (fun _ => "tok") (some "alice@example.com")
        (some "pw") sampleDB).1 ∧
    (login (fun _ _ => false) (fun _ => "tok") (some "bob@example.com")
        (some "pw") emptyDB).1 = ⟨400, Body.errorB "Invalid credentials"⟩ :=
  login_indistinguishable (fun _ _ => false) (fun _ => "tok")
    "bob@example.com" "pw" "alice@example.com" "pw" emptyDB sampleDB
    (by decide) (by decide) (by decide) (by decide) rfl sampleUser [] rfl rfl

/-- C3: with all four registration fields present, an already-registered
email yields 400 "User already exists" with the database unchanged;
otherwise exactly one row is inserted (password hashed) and the 201
response carries only id, name, email and role. -/
theorem register_spec (hash : String → String)
    (name email password role : Option String) (db : DB)
    (hn : truthyS name = true) (he : truthyS email = true)
    (hp : truthyS password = true) (hr : truthyS role = true) :
    (db.users.filter (fun u => u.email == email.getD "") ≠ [] →
      register hash name email password role db =
        (⟨400, Body.errorB "User already exists"⟩, db)) ∧
    (db.users.filter (fun u => u.email == email.getD "") = [] →
      register hash name email password role db =
        (⟨201, Body.msgUser "User registered successfully"
            ⟨db.nextUserId, name.getD "", email.getD "", role.getD ""⟩⟩,
         { db with
             users := db.users ++
               [⟨db.nextUserId, name.getD "", email.getD "",
                 hash (password.getD ""), role.getD ""⟩],
             nextUserId := db.nextUserId + 1 })) := by
  constructor
  · intro hex
    have hlen : 0 < (db.users.filter (fun u => u.email == email.getD "")).length :=
      List.length_pos.mpr hex
    simp [register, hn, he, hp, hr, hlen]
  · intro hnone
    simp [register, hn, he, hp, hr, hnone]

/-- Witness for C3: registering a fresh email on the empty database, and
re-registering the sample user's email on the sample database. -/
theorem register_spec_witness :
    register (fun s => s ++ "#h") (some "Bob") (some "bob@example.com")
        (some "pw") (some "student") emptyDB =
      (⟨201, Body.msgUser "User registered successfully"
          ⟨1, "Bob", "bob@example.com", "student"⟩⟩,
       ⟨[⟨1, "Bob", "bob@example.com", "pw#h", "student"⟩], [], [], [], 2, 1⟩) ∧
    register (fun s => s ++ "#h") (some "Eve") (some "alice@example.com")
        (some "pw") (some "student") sampleDB =
      (⟨400, Body.errorB "User already exists"⟩, sampleDB) :=
  ⟨(register_spec (fun s => s ++ "#h") (some "Bob") (some "bob@example.com")
      (some "pw") (some "student") emptyDB rfl rfl rfl rfl).2 rfl,
   (register_spec (fun s => s ++ "#h") (some "Eve") (some "alice@example.com")
      (some "pw") (some "student") sampleDB rfl rfl rfl rfl).1 (by decide)⟩

/-- Filtering a list twice yields no more matches than filtering it once. -/
lemma filter_filter_length_le {α : Type} (l : List α) (p q : α → Bool) :
    ((l.filter q).filter p).length ≤ (l.filter p).length :=
  List.Sublist.length_le (List.Sublist.filter p (List.filter_sublist l))

/-- C4: with both fields present, enrolling fails 400 when the
(courseId, userId) pair already has an Enrollment and inserts the pair
otherwise; the at-most-one-Enrollment-per-pair invariant is preserved by
every enroll and every disenroll from any state satisfying it. -/
theorem enroll_spec (courseId userId : Option Nat) (db : DB)
    (hc : truthyN courseId = true) (hu : truthyN userId = true) :
    (0 < enrollCount db (courseId.getD 0) (userId.getD 0) →
      enroll courseId userId db =
        (⟨400, Body.errorB "User is already enrolled in this course"⟩, db)) ∧
    (enrollCount db (courseId.getD 0) (userId.getD 0) = 0 →
      enroll courseId userId db =
        (⟨201, Body.msgEnrollment "Enrollment successful"
            ⟨courseId.getD 0, userId.getD 0⟩⟩,
         { db with enrollments :=
             db.enrollments ++ [⟨courseId.getD 0, userId.getD 0⟩] })) ∧
    (∀ cid uid : Option Nat, ∀ s : DB, pairUnique s →
      pairUnique (enroll cid uid s).2) ∧
    (∀ cid uid : Option Nat, ∀ s : DB, pairUnique s →
      pairUnique (disenroll cid uid s).2) := by
  refine ⟨?_, ?_, ?_, ?_⟩
  · intro h
    unfold enrollCount at h
    simp [enroll, hc, hu, h]
  · intro h
    unfold enrollCount at h
    simp [enroll, hc, hu, h]
  · intro cid uid s hs
    by_cases hg : (truthyN cid && truthyN uid) = true
    · by_cases hex : 0 <
          (s.enrollments.filter (fun e =>
            e.course_id == cid.getD 0 && e.user_id == uid.getD 0)).length
      · have heq : (enroll cid uid s).2 = s := by
          simp [enroll, hg, hex]
        rw [heq]; exact hs
      · have heq : (enroll cid uid s).2 =
            { s with enrollments :=
                s.enrollments ++ [⟨cid.getD 0, uid.getD 0⟩] } := by
          simp [enroll, hg, hex]
        rw [heq]
        intro c' u'
        unfold enrollCount
        simp only [List.filter_append, List.length_append, List.filter_cons,
          List.filter_nil]
        by_cases hm : ((cid.getD 0 : Nat) == c' && (uid.getD 0 : Nat) == u') = true
        · have hcc : cid.getD 0 = c' := by
            have := hm
            simp only [Bool.and_eq_true, beq_iff_eq] at this
            exact this.1
          have huu : uid.getD 0 = u' := by
            have := hm
            simp only [Bool.and_eq_true, beq_iff_eq] at this
            exact this.2
          have hzero :
              (s.enrollments.filter (fun e =>
                e.course_id == c' && e.user_id == u')).length = 0 := by
            rw [← hcc, ← huu]
            omega
          simp only [hm, if_true]
          simp [hzero]
        · simp only [hm, if_false]
          simpa using hs c' u'
    · have heq : (enroll cid uid s).2 = s := by
        simp [enroll, hg]
      rw [heq]; exact hs
  · intro cid uid s hs
    by_cases hg : (truthyN cid && truthyN uid) = true
    · by_cases hempty :
          (s.enrollments.filter (fun e =>
            e.course_id == cid.getD 0 && e.user_id == uid.getD 0)).length = 0
      · have heq : (disenroll cid uid s).2 = s := by
          simp [disenroll, hg, hempty]
        rw [heq]; exact hs
      · have heq : (disenroll cid uid s).2 =
            { s with enrollments := s.enrollments.filter (fun e =>
                !(e.course_id == cid.getD 0 && e.user_id == uid.getD 0)) } := by
          simp [disenroll, hg, hempty]
        rw [heq]
        intro c' u'
        unfold enrollCount
        exact le_trans (filter_filter_length_le _ _ _) (hs c' u')
    · have heq : (disenroll cid uid s).2 = s := by
        simp [disenroll, hg]
      rw [heq]; exact hs

/-- Witness for C4: the (1,1) pair of the sample database is already
enrolled so a second enroll fails 400, and enrolling the fresh pair (1,2)
keeps the uniqueness invariant. -/
theorem enroll_spec_witness :
    enroll (some 1) (some 1) sampleDB =
      (⟨400, Body.errorB "User is already enrolled in this course"⟩, sampleDB) ∧
    pairUnique (enroll (some 1) (some 2) sampleDB).2 := by
  have hpu : pairUnique sampleDB := by
    intro c u
    exact List.length_filter_le _ _
  exact ⟨(enroll_spec (some 1) (some 1) sampleDB rfl rfl).1 (by decide),
         (enroll_spec (some 1) (some 1) sampleDB rfl rfl).2.2.1
           (some 1) (some 2) sampleDB hpu⟩

/-- C5: updating an existing course with at least one field supplied
answers 200, touches no other table and no other course row, keeps id and
instructor_id of the matching row, leaves an unsupplied title or
description at its prior value and replaces a supplied one. -/
theorem updateCourse_spec (id : Nat) (title description : Option String)
    (db : DB) (hguard : (truthyS title || truthyS description) = true)
    (hex : db.courses.filter (fun c => c.id == id) ≠ []) :
    (updateCourse id title description db).1.status = 200 ∧
    (updateCourse id title description db).2.users = db.users ∧
    (updateCourse id title description db).2.enrollments = db.enrollments ∧
    (updateCourse id title description db).2.reviews = db.reviews ∧
    (updateCourse id title description db).2.courses.length = db.courses.length ∧
    ∀ i (hi : i < db.courses.length)
        (hi2 : i < (updateCourse id title description db).2.courses.length),
      (((updateCourse id title description db).2.courses.get ⟨i, hi2⟩).id =
          (db.courses.get ⟨i, hi⟩).id ∧
       ((updateCourse id title description db).2.courses.get
           ⟨i, hi2⟩).instructor_id =
          (db.courses.get ⟨i, hi⟩).instructor_id) ∧
      ((db.courses.get ⟨i, hi⟩).id ≠ id →
        (updateCourse id title description db).2.courses.get ⟨i, hi2⟩ =
          db.courses.get ⟨i, hi⟩) ∧
      ((db.courses.get ⟨i, hi⟩).id = id →
        (title = none →
          (((updateCourse id title description db).2.courses.get ⟨i, hi2⟩).title =
            (db.courses.get ⟨i, hi⟩).title)) ∧
        (∀ t, title = some t →
          (((updateCourse id title description db).2.courses.get ⟨i, hi2⟩).title = t)) ∧
        (description = none →
          (((updateCourse id title description db).2.courses.get
              ⟨i, hi2⟩).description =
            (db.courses.get ⟨i, hi⟩).description)) ∧
        (∀ d, description = some d →
          (((updateCourse id title description db).2.courses.get
              ⟨i, hi2⟩).description = some d))) := by
  have hlen0 : ¬(db.courses.filter (fun c => c.id == id)).length = 0 := by
    simpa [List.length_eq_zero] using hex
  have heq : (updateCourse id title description db).2 =
      { db with courses := db.courses.map fun c =>
          if c.id == id then
            { c with title := coalesceS title c.title,
                     description := coalesceOS description c.description }
          else c } := by
    simp [updateCourse, hguard, hlen0]
  have hst : (updateCourse id title description db).1.status = 200 := by
    simp [updateCourse, hguard, hlen0]
  refine ⟨hst, ?_, ?_, ?_, ?_, ?_⟩
  · rw [heq]
  · rw [heq]
  · rw [heq]
  · rw [heq]; simp
  · intro i hi hi2
    have hget : (updateCourse id title description db).2.courses.get ⟨i, hi2⟩ =
        (if (db.courses.get ⟨i, hi⟩).id == id then
          { db.courses.get ⟨i, hi⟩ with
              title := coalesceS title (db.courses.get ⟨i, hi⟩).title,
              description := coalesceOS description (db.courses.get ⟨i, hi⟩).description }
        else db.courses.get ⟨i, hi⟩) := by
      have h2 : (updateCourse id title description db).2.courses =
          db.courses.map fun c =>
            if c.id == id then
              { c with title := coalesceS title c.title,
                       description := coalesceOS description c.description }
            else c := by rw [heq]
      simp only [List.get_eq_getElem] at *
      rw [List.getElem_of_eq h2 hi2]
      simp
    by_cases hcid : (db.courses.get ⟨i, hi⟩).id = id
    · rw [hget,
        if_pos (show ((db.courses.get ⟨i, hi⟩).id == id) = true by simpa using hcid)]
      refine ⟨⟨rfl, rfl⟩, ?_, ?_⟩
      · intro hne; exact absurd hcid hne
      · intro _
        refine ⟨?_, ?_, ?_, ?_⟩
        · intro ht; subst ht; rfl
        · intro t ht; subst ht; rfl
        · intro hd; subst hd; rfl
        · intro d hd; subst hd; rfl
    · rw [hget,
        if_neg (show ¬((db.courses.get ⟨i, hi⟩).id == id) = true by simpa using hcid)]
      exact ⟨⟨rfl, rfl⟩, fun _ => rfl, fun h => absurd h hcid⟩

/-- Witness for C5: updating the sample course with only a description
leaves its title "Algebra" unchanged. -/
theorem updateCourse_spec_witness :
    (updateCourse 1 none (some "advanced") sampleDB).1.status = 200 ∧
    (updateCourse 1 none (some "advanced") sampleDB).2.users = sampleDB.users ∧
    (updateCourse 1 none (some "advanced") sampleDB).2.courses =
      [⟨1, "Algebra", some "advanced", 1⟩] := by
  have h := updateCourse_spec 1 none (some "advanced") sampleDB rfl (by decide)
  exact ⟨h.1, h.2.1, by rfl⟩

/-- C6: with both fields present, disenrolling a pair with no Enrollment
answers 404 and changes nothing; disenrolling an existing pair deletes the
matching rows, answers the success message, and the user's enrolled-course
join no longer contains the disenrolled course. -/
theorem disenroll_spec (courseId userId : Option Nat) (db : DB)
    (hc : truthyN courseId = true) (hu : truthyN userId = true) :
    (enrollCount db (courseId.getD 0) (userId.getD 0) = 0 →
      disenroll courseId userId db =
        (⟨404, Body.errorB "Enrollment not found"⟩, db)) ∧
    (0 < enrollCount db (courseId.getD 0) (userId.getD 0) →
      (disenroll courseId userId db).1 =
        ⟨200, Body.messageB "Disenrollment successful"⟩ ∧
      (disenroll courseId userId db).2 =
        { db with enrollments := db.enrollments.filter (fun e =>
            !(e.course_id == courseId.getD 0 && e.user_id == userId.getD 0)) } ∧
      ∀ c ∈ enrolledCoursesRows (userId.getD 0) (disenroll courseId userId db).2,
        c.id ≠ courseId.getD 0) := by
  constructor
  · intro h
    unfold enrollCount at h
    simp [disenroll, hc, hu, h]
  · intro h
    unfold enrollCount at h
    have hne : ¬(db.enrollments.filter (fun e =>
        e.course_id == courseId.getD 0 && e.user_id == userId.getD 0)).length = 0 := by
      omega
    have heq : disenroll courseId userId db =
        (⟨200, Body.messageB "Disenrollment successful"⟩,
         { db with enrollments := db.enrollments.filter (fun e =>
             !(e.course_id == courseId.getD 0 && e.user_id == userId.getD 0)) }) := by
      simp [disenroll, hc, hu, hne]
    refine ⟨by rw [heq], by rw [heq], ?_⟩
    intro c hcMem
    rw [heq] at hcMem
    unfold enrolledCoursesRows at hcMem
    obtain ⟨e, he, hc2⟩ := List.mem_flatMap.mp hcMem
    intro habs
    have hcid2 : c.id = e.course_id := by
      simpa using (List.mem_filter.mp hc2).2
    have heU : e.user_id = userId.getD 0 := by
      simpa using (List.mem_filter.mp he).2
    have hkeep := (List.mem_filter.mp ((List.mem_filter.mp he).1)).2
    have hec : e.course_id = courseId.getD 0 := hcid2.symm.trans habs
    simp [hec, heU] at hkeep

/-- Witness for C6: on the sample database, pair (2,1) is not enrolled so
disenrolling it fails 404; pair (1,1) is enrolled, disenrolling succeeds
and user 1's enrolled-course join becomes empty. -/
theorem disenroll_spec_witness :
    disenroll (some 2) (some 1) sampleDB =
      (⟨404, Body.errorB "Enrollment not found"⟩, sampleDB) ∧
    (disenroll (some 1) (some 1) sampleDB).1 =
      ⟨200, Body.messageB "Disenrollment successful"⟩ ∧
    enrolledCoursesRows 1 (disenroll (some 1) (some 1) sampleDB).2 = [] := by
  have h1 := (disenroll_spec (some 2) (some 1) sampleDB rfl rfl).1 (by decide)
  have h2 := (disenroll_spec (some 1) (some 1) sampleDB rfl rfl).2 (by decide)
  exact ⟨h1, h2.1, by rfl⟩

/-- C7: review submission inserts unconditionally once the presence check
passes: two submissions for the same (courseId, userId) pair both answer
201 and the pair's row count grows by two. -/
theorem submitReview_spec (courseId : Nat) (rating1 rating2 : Option Int)
    (comment1 comment2 : Option String) (userId : Option Nat) (db : DB)
    (h1 : truthyI rating1 = true) (h2 : truthyI rating2 = true)
    (hu : truthyN userId = true) :
    (submitReview courseId rating1 comment1 userId db).1.status = 201 ∧
    (submitReview courseId rating1 comment1 userId db).2.reviews =
      db.reviews ++ [⟨courseId, userId.getD 0, rating1.getD 0, comment1⟩] ∧
    (submitReview courseId rating2 comment2 userId
        (submitReview courseId rating1 comment1 userId db).2).1.status = 201 ∧
    reviewCount (submitReview courseId rating2 comment2 userId
        (submitReview courseId rating1 comment1 userId db).2).2
        courseId (userId.getD 0) =
      reviewCount db courseId (userId.getD 0) + 2 := by
  have e1 : submitReview courseId rating1 comment1 userId db =
      (⟨201, Body.msgReview "Feedback submitted successfully"
          ⟨courseId, userId.getD 0, rating1.getD 0, comment1⟩⟩,
       { db with reviews :=
           db.reviews ++ [⟨courseId, userId.getD 0, rating1.getD 0, comment1⟩] }) := by
    simp [submitReview, h1, hu]
  have e2 : submitReview courseId rating2 comment2 userId
      (submitReview courseId rating1 comment1 userId db).2 =
      (⟨201, Body.msgReview "Feedback submitted successfully"
          ⟨courseId, userId.getD 0, rating2.getD 0, comment2⟩⟩,
       { db with reviews :=
           db.reviews ++ [⟨courseId, userId.getD 0, rating1.getD 0, comment1⟩] ++
             [⟨courseId, userId.getD 0, rating2.getD 0, comment2⟩] }) := by
    rw [e1]
    simp [submitReview, h2, hu]
  refine ⟨by rw [e1], by rw [e1], by rw [e2], ?_⟩
  rw [e2]
  unfold reviewCount
  simp [List.filter_append]

/-- Witness for C7: submitting a rating-4 and then a rating-2 review for
the already-reviewed pair (1,1) of the sample database leaves three rows
for that pair. -/
theorem submitReview_spec_witness :
    (submitReview 1 (some 4) none (some 1) sampleDB).1.status = 201 ∧
    reviewCount (submitReview 1 (some 2) (some "meh") (some 1)
        (submitReview 1 (some 4) none (some 1) sampleDB).2).2 1 1 =
      reviewCount sampleDB 1 1 + 2 := by
  have h := submitReview_spec 1 (some 4) (some 2) none (some "meh") (some 1)
    sampleDB rfl rfl rfl
  exact ⟨h.1, h.2.2.2⟩

/-- C8: the empty-result policies differ: listing courses by instructor
with no rows answers 200 with an empty array, while listing a user's
enrolled courses or a course's reviews with no rows answers 404. -/
theorem listing_empty_spec (instructorId userId courseId : Nat) (db : DB)
    (hno : db.courses.filter (fun c => c.instructor_id == instructorId) = [])
    (hne : enrolledCoursesRows userId db = [])
    (hnr : courseReviewRows courseId db = []) :
    getCoursesByInstructor instructorId db = (⟨200, Body.coursesB []⟩, db) ∧
    getEnrolledCourses userId db =
      (⟨404, Body.messageB "No enrolled courses found"⟩, db) ∧
    getCourseReviews courseId db =
      (⟨404, Body.messageB "No reviews found for this course"⟩, db) := by
  refine ⟨?_, ?_, ?_⟩
  · simp [getCoursesByInstructor, hno]
  · simp [getEnrolledCourses, hne]
  · simp [getCourseReviews, hnr]

/-- Witness for C8: instructor 2, user 2 and course 2 have no rows in the
sample database. -/
theorem listing_empty_spec_witness :
    getCoursesByInstructor 2 sampleDB = (⟨200, Body.coursesB []⟩, sampleDB) ∧
    getEnrolledCourses 2 sampleDB =
      (⟨404, Body.messageB "No enrolled courses found"⟩, sampleDB) ∧
    getCourseReviews 2 sampleDB =
      (⟨404, Body.messageB "No reviews found for this course"⟩, sampleDB) :=
  listing_empty_spec 2 2 2 sampleDB rfl rfl rfl

/-- C9: every handler checks before it writes: whenever the response
status is 400 or 404 the resulting database state equals the prior state. -/
theorem error_atomicity :
    (∀ hash name email password role db,
      ((register hash name email password role db).1.status = 400 ∨
       (register hash name email password role db).1.status = 404) →
      (register hash name email password role db).2 = db) ∧
    (∀ compare tokenFor email password db,
      ((login compare tokenFor email password db).1.status = 400 ∨
       (login compare tokenFor email password db).1.status = 404) →
      (login compare tokenFor email password db).2 = db) ∧
    (∀ title description instructor_id db,
      ((addCourse title description instructor_id db).1.status = 400 ∨
       (addCourse title description instructor_id db).1.status = 404) →
      (addCourse title description instructor_id db).2 = db) ∧
    (∀ id title description db,
      ((updateCourse id title description db).1.status = 400 ∨
       (updateCourse id title description db).1.status = 404) →
      (updateCourse id title description db).2 = db) ∧
    (∀ id db,
      ((deleteCourse id db).1.status = 400 ∨
       (deleteCourse id db).1.status = 404) →
      (deleteCourse id db).2 = db) ∧
    (∀ courseId userId db,
      ((enroll courseId userId db).1.status = 400 ∨
       (enroll courseId userId db).1.status = 404) →
      (enroll courseId userId db).2 = db) ∧
    (∀ courseId userId db,
      ((disenroll courseId userId db).1.status = 400 ∨
       (disenroll courseId userId db).1.status = 404) →
      (disenroll courseId userId db).2 = db) ∧
    (∀ courseId rating comment userId db,
      ((submitReview courseId rating comment userId db).1.status = 400 ∨
       (submitReview courseId rating comment userId db).1.status = 404) →
      (submitReview courseId rating comment userId db).2 = db) ∧
    (∀ courseId userId rating comment db,
      ((updateReview courseId userId rating comment db).1.status = 400 ∨
       (updateReview courseId userId rating comment db).1.status = 404) →
      (updateReview courseId userId rating comment db).2 = db) := by
  refine ⟨?_, ?_, ?_, ?_, ?_, ?_, ?_, ?_, ?_⟩
  · intro hash name email password role db h
    simp only [register] at h ⊢
    split_ifs at h ⊢ <;> simp_all
  · intro compare tokenFor email password db h
    clear h
    simp only [login]
    split
    · rfl
    · split
      · rfl
      · split <;> rfl
  · intro title description instructor_id db h
    simp only [addCourse] at h ⊢
    split_ifs at h ⊢ <;> simp_all
  · intro id title description db h
    simp only [updateCourse] at h ⊢
    split_ifs at h ⊢ <;> simp_all
  · intro id db h
    simp only [deleteCourse] at h ⊢
    split_ifs at h ⊢ <;> simp_all
  · intro courseId userId db h
    simp only [enroll] at h ⊢
    split_ifs at h ⊢ <;> simp_all
  · intro courseId userId db h
    simp only [disenroll] at h ⊢
    split_ifs at h ⊢ <;> simp_all
  · intro courseId rating comment userId db h
    simp only [submitReview] at h ⊢
    split_ifs at h ⊢ <;> simp_all
  · intro courseId userId rating comment db h
    simp only [updateReview] at h ⊢
    split_ifs at h ⊢ <;> simp_all

/-- Witness for C9: a duplicate registration (400) and a disenroll of a
missing pair (404) leave the sample database untouched. -/
theorem error_atomicity_witness :
    (register (fun s => s) (some "Eve") (some "alice@example.com") (some "pw")
        (some "student") sampleDB).2 = sampleDB ∧
    (disenroll (some 2) (some 1) sampleDB).2 = sampleDB :=
  ⟨error_atomicity.1 (fun s => s) (some "Eve") (some "alice@example.com")
      (some "pw") (some "student") sampleDB (Or.inl (by decide)),
   error_atomicity.2.2.2.2.2.2.1 (some 2) (some 1) sampleDB (Or.inr (by decide))⟩

/-- C10: the presence checks use JavaScript falsiness, so a review
submission with rating 0 (userId present) is rejected 400 as missing, and
a review update supplying only rating 0 is rejected 400 as if neither
field were supplied. -/
theorem falsy_zero_rating (courseId userId uid : Nat) (comment : Option String)
    (db : DB) (hu : uid ≠ 0) :
    submitReview courseId (some 0) comment (some uid) db =
      (⟨400, Body.errorB "Course ID, Rating, and User ID are required"⟩, db) ∧
    updateReview courseId userId (some 0) none db =
      (⟨400, Body.errorB "At least one field (rating or comment) must be provided"⟩, db) := by
  constructor
  · simp [submitReview, truthyI]
  · simp [updateReview, truthyI, truthyS]

/-- Witness for C10 at concrete ids on the sample database. -/
theorem falsy_zero_rating_witness :
    submitReview 1 (some 0) (some "nice") (some 1) sampleDB =
      (⟨400, Body.errorB "Course ID, Rating, and User ID are required"⟩, sampleDB) ∧
    updateReview 1 1 (some 0) none sampleDB =
      (⟨400, Body.errorB "At least one field (rating or comment) must be provided"⟩,
       sampleDB) :=
  falsy_zero_rating 1 1 1 (some "nice") sampleDB (by decide)

end OLP
